import Mathlib

/-!
Shallow embedding of the configuration, authorization and route-composition
core of the python-microservice-template repository, together with the
user CRUD error paths, and proofs of the specification's claims about them.

Python strings are modelled as Lean `String` (backed by `List Char`); the
process environment is modelled per-variable as an `Option String`
(`none` = unset).  Raised `HTTPException`s become `Except` errors.
-/

deriving instance DecidableEq for Except

namespace Microservice

/-- Model of fastapi.HTTPException: status code, detail message, extra
    response headers. -/
structure HTTPException where
  status_code : Nat
  detail : String
  headers : List (String × String) := []
deriving Repr, DecidableEq

/-- `os.getenv(key, default)`: the variable's value when set, else the
    default.  The environment is passed as the variable's own entry. -/
def getenv (value : Option String) (default : String) : String :=
  value.getD default

/-- Embedding of Python `str.strip()` on a character list: drop whitespace
    from the front, then from the back. -/
def stripChars (cs : List Char) : List Char :=
  ((cs.dropWhile Char.isWhitespace).reverse.dropWhile Char.isWhitespace).reverse

/-- Embedding of Python `str.strip()`. -/
def pyStrip (s : String) : String :=
  ⟨stripChars s.data⟩

/-- Embedding of Python `str.lower()` (characterwise lowering). -/
def pyLower (s : String) : String :=
  ⟨s.data.map Char.toLower⟩

/-- Splitting a character list on a separator character, with Python's
    `str.split(sep)` semantics: `"".split(",") == [""]`, adjacent
    separators produce empty fields. -/
def splitOnChar (sep : Char) : List Char → List (List Char)
  | [] => [[]]
  | c :: cs =>
    match splitOnChar sep cs with
    | [] => [[]]
    | cur :: rest => if c = sep then [] :: cur :: rest else (c :: cur) :: rest

/-- Embedding of Python `value.split(separator)`.  Every separator used in
    the repository is a single character (`","` in auth/env, `";"` in the
    documented example), so the separator is modelled as a `Char`. -/
def pySplit (s : String) (sep : Char) : List String :=
  (splitOnChar sep s.data).map (fun cs => ⟨cs⟩)

/-- src/app/core/env.py `get_env_bool`: lowercase the value; empty/unset
    gives the default; otherwise compare with the literal "true". -/
def get_env_bool (value : Option String) (default : Bool := false) : Bool :=
  let v := pyLower (getenv value "")
  if v = "" then default
  else v == "true"

/-- src/app/core/env.py `get_env_str`: the raw value or the default. -/
def get_env_str (value : Option String) (default : String := "") : String :=
  getenv value default

/-- src/app/core/env.py `get_env_list`: empty/unset gives the default;
    otherwise split on the separator, strip each item, and keep the items
    that are non-empty after stripping. -/
def get_env_list (value : Option String) (separator : Char := ',')
    (default : List String := []) : List String :=
  let v := getenv value ""
  if v = "" then default
  else ((pySplit v separator).map pyStrip).filter (fun item => item ≠ "")

/-- src/app/core/auth.py: `API_TOKENS_STR = os.getenv("API_TOKENS", "")`. -/
def API_TOKENS_STR (env : Option String) : String :=
  getenv env ""

/-- src/app/core/auth.py `VALID_API_TOKENS`: the set comprehension
    `{token.strip() for token in API_TOKENS_STR.split(",") if token.strip()}`,
    modelled as a duplicate-free list (set semantics = membership). -/
def VALID_API_TOKENS (api_tokens_str : String) : List String :=
  (((pySplit api_tokens_str ',').map pyStrip).filter (fun token => token ≠ "")).dedup

/-- The 500 error raised by `get_api_token` when no tokens are configured. -/
def auth_not_configured_error : HTTPException :=
  { status_code := 500
    detail := "Bearer token authentication is not configured" }

/-- The 401 error raised by `get_api_token` when no credential was sent. -/
def missing_bearer_error : HTTPException :=
  { status_code := 401
    detail := "Missing bearer token"
    headers := [("WWW-Authenticate", "Bearer")] }

/-- The 403 error raised by `get_api_token` on an unknown credential. -/
def invalid_bearer_error : HTTPException :=
  { status_code := 403
    detail := "Invalid bearer token" }

/-- src/app/core/auth.py `get_api_token`, parameterised by the current
    contents of the token store (`VALID_API_TOKENS`) and the optional
    bearer credential extracted from the Authorization header. -/
def get_api_token (tokens : List String) (credentials : Option String) :
    Except HTTPException String :=
  if tokens.isEmpty then
    .error auth_not_configured_error
  else
    match credentials with
    | none => .error missing_bearer_error
    | some c =>
      if c ∈ tokens then .ok c
      else .error invalid_bearer_error

/-- src/app/core/auth.py `is_auth_enabled`: `bool(VALID_API_TOKENS)`. -/
def is_auth_enabled (tokens : List String) : Bool :=
  !tokens.isEmpty

/-- src/app/core/exceptions.py `not_found_exception`. -/
def not_found_exception (resource : String) (identifier : String) : HTTPException :=
  { status_code := 404
    detail := resource ++ " " ++ identifier ++ " not found" }

/-- src/app/core/exceptions.py `bad_request_exception`. -/
def bad_request_exception (detail : String) : HTTPException :=
  { status_code := 400, detail := detail }

/-- src/app/core/exceptions.py `internal_server_exception`. -/
def internal_server_exception (detail : String) : HTTPException :=
  { status_code := 500, detail := detail }

/-- A SQLAlchemy engine, reduced to the connection string it was built
    from (src/app/core/database.py `create_engine(DATABASE_URL, ...)`). -/
structure Engine where
  url : String
deriving Repr, DecidableEq

/-- src/app/core/database.py: `DATABASE_URL = get_env_str("DATABASE_URL")`. -/
def DATABASE_URL (env : Option String) : String :=
  get_env_str env ""

/-- src/app/core/database.py module body: the engine is `None` unless
    `DATABASE_URL` is a non-empty string. -/
def engine (env : Option String) : Option Engine :=
  if DATABASE_URL env = "" then none
  else some { url := DATABASE_URL env }

/-- src/app/core/database.py `get_session`: raise a 500 when the engine is
    `None`, else hand out a session bound to the engine. -/
def get_session (eng : Option Engine) : Except HTTPException Engine :=
  match eng with
  | none =>
    .error (internal_server_exception
      "Database not configured. Set DATABASE_URL environment variable.")
  | some e => .ok e

/-- The optional route groups of the v1 router
    (src/app/api/routes/v1/__init__.py). -/
inductive RouteGroup where
  | items
  | protectedRoutes
  | users
deriving Repr, DecidableEq

/-- src/app/api/routes/v1/__init__.py module body: items always, the
    protected group iff `is_auth_enabled()`, the users group iff the
    engine is not `None`. -/
def v1Routers (tokens : List String) (eng : Option Engine) : List RouteGroup :=
  [RouteGroup.items]
    ++ (if is_auth_enabled tokens then [RouteGroup.protectedRoutes] else [])
    ++ (if eng.isSome then [RouteGroup.users] else [])

/-- Boundary outcome (HTTP status) of a request to a protected path:
    404 when the protected group was not attached; otherwise the router's
    `Depends(get_api_token)` dependency runs and its error status (or 200
    on success) is returned. -/
def protectedRequestStatus (tokens : List String) (eng : Option Engine)
    (credentials : Option String) : Nat :=
  if RouteGroup.protectedRoutes ∈ v1Routers tokens eng then
    match get_api_token tokens credentials with
    | .ok _ => 200
    | .error e => e.status_code
  else 404

/-- src/app/models/user.py `User`. -/
structure User where
  id : Option Nat := none
  email : String
  username : String
  full_name : Option String := none
  is_active : Bool := true
deriving Repr, DecidableEq

/-- The WHERE clause of create_user's duplicate check:
    `(User.email == user.email) | (User.username == user.username)`. -/
def userConflicts (e u : User) : Bool :=
  e.email = u.email ∨ e.username = u.username

/-- src/app/api/routes/users.py `create_user`, with the session's user
    table modelled as a list of records: if any existing record matches
    the new user's email or username, raise the 400 conflict and leave
    the table unchanged; else add the record and return it. -/
def create_user (store : List User) (user : User) :
    List User × Except HTTPException User :=
  match store.find? (fun e => userConflicts e user) with
  | some _ =>
    (store, .error (bad_request_exception
      "User with this email or username already exists"))
  | none => (store ++ [user], .ok user)

/-- `session.get(User, id)`: primary-key lookup. -/
def session_get (store : List User) (id : Nat) : Option User :=
  store.find? (fun u => u.id = some id)

/-- src/app/core/db_utils.py `get_by_id_or_404`, specialised to the User
    model (whose `__name__` supplies the default resource name). -/
def get_by_id_or_404 (store : List User) (id : Nat)
    (resource_name : Option String := none) : Except HTTPException User :=
  match session_get store id with
  | none => .error (not_found_exception (resource_name.getD "User") (toString id))
  | some record => .ok record

/-- src/app/api/routes/users.py `get_user`:
    `get_by_id_or_404(session, User, user_id, "User")`. -/
def get_user (store : List User) (user_id : Nat) : Except HTTPException User :=
  get_by_id_or_404 store user_id (some "User")

/-- Embedding of Python `token[:8]`: the first eight characters. -/
def pyTake8 (s : String) : String :=
  ⟨s.data.take 8⟩

/-- The JSON body returned by `read_protected_data`
    (src/app/api/routes/v1/protected.py). -/
structure ProtectedDataResponse where
  message : String
  data : List String
  token_preview : String
deriving Repr, DecidableEq

/-- src/app/api/routes/v1/protected.py `read_protected_data`, given the
    validated bearer token injected by `BearerToken`. -/
def read_protected_data (token : String) : ProtectedDataResponse :=
  { message := "This is protected data"
    data := ["item1", "item2", "item3"]
    token_preview := pyTake8 token ++ "..." }

/-! ## Helper lemmas -/

/-- `pyLower` maps the empty string, and only it, to the empty string. -/
theorem pyLower_eq_empty_iff (v : String) : pyLower v = "" ↔ v = "" := by
  cases v with
  | mk data => simp [pyLower, String.ext_iff]

/-- The head of a non-empty `dropWhile p` result fails `p`. -/
theorem exists_mem_dropWhile_not (p : Char → Bool) :
    ∀ l : List Char, l.dropWhile p ≠ [] →
      ∃ c ∈ l.dropWhile p, p c = false := by
  intro l
  induction l with
  | nil => simp
  | cons x xs ih =>
    intro h
    rw [List.dropWhile_cons] at h ⊢
    by_cases hx : p x = true
    · rw [if_pos hx] at h ⊢
      exact ih h
    · rw [if_neg hx] at h ⊢
      exact ⟨x, List.mem_cons_self x xs, by simpa using hx⟩

/-- A non-empty stripped string is never whitespace-only: stripping removes
    all trailing whitespace, so some character of the result is
    non-whitespace. -/
theorem stripChars_not_all_whitespace (cs : List Char)
    (h : stripChars cs ≠ []) :
    (stripChars cs).all Char.isWhitespace = false := by
  unfold stripChars at h ⊢
  have hb : ((cs.dropWhile Char.isWhitespace).reverse.dropWhile
      Char.isWhitespace) ≠ [] := by
    intro hnil
    exact h (by rw [hnil, List.reverse_nil])
  obtain ⟨c, hc, hpc⟩ :=
    exists_mem_dropWhile_not Char.isWhitespace
      (cs.dropWhile Char.isWhitespace).reverse hb
  rw [Bool.eq_false_iff]
  intro hall
  have := (List.all_eq_true.mp hall) c (List.mem_reverse.mpr hc)
  rw [hpc] at this
  exact Bool.false_ne_true this

/-! ## Claim theorems -/

/-- C1: for every token set T installed in the token store and every
    optional credential c, `get_api_token` succeeds and returns c iff T is
    non-empty, c is supplied and c is a member of T; otherwise it fails
    with exactly one of three pairwise-distinct error kinds, decided in
    strict order: empty store gives the 500 configuration error regardless
    of c, then a missing credential gives the 401 error carrying the
    WWW-Authenticate Bearer header, then an unknown credential gives the
    403 error. -/
theorem authorize_decision_spec (T : List String) (c : Option String) :
    (∀ t, get_api_token T c = .ok t ↔ T ≠ [] ∧ c = some t ∧ t ∈ T)
    ∧ (T = [] → get_api_token T c = .error auth_not_configured_error)
    ∧ (T ≠ [] → c = none → get_api_token T c = .error missing_bearer_error)
    ∧ (∀ t, T ≠ [] → c = some t → t ∉ T →
        get_api_token T c = .error invalid_bearer_error)
    ∧ auth_not_configured_error.status_code = 500
    ∧ missing_bearer_error.status_code = 401
    ∧ missing_bearer_error.headers = [("WWW-Authenticate", "Bearer")]
    ∧ invalid_bearer_error.status_code = 403
    ∧ auth_not_configured_error ≠ missing_bearer_error
    ∧ auth_not_configured_error ≠ invalid_bearer_error
    ∧ missing_bearer_error ≠ invalid_bearer_error := by
  refine ⟨?_, ?_, ?_, ?_, rfl, rfl, rfl, rfl, by decide, by decide, by decide⟩
  · intro t
    constructor
    · intro h
      unfold get_api_token at h
      by_cases hT : T.isEmpty
      · rw [if_pos hT] at h
        exact Except.noConfusion h
      · rw [if_neg hT] at h
        cases c with
        | none => exact Except.noConfusion h
        | some x =>
          have h2 : (if x ∈ T then Except.ok x
              else Except.error invalid_bearer_error) = Except.ok t := h
          by_cases hx : x ∈ T
          · rw [if_pos hx] at h2
            have hxt : x = t := by injection h2
            subst hxt
            exact ⟨fun hnil => hT (by simp [hnil]), rfl, hx⟩
          · rw [if_neg hx] at h2
            exact Except.noConfusion h2
    · rintro ⟨hT, hc, hmem⟩
      subst hc
      unfold get_api_token
      rw [if_neg (fun h => hT (List.isEmpty_iff.mp h))]
      show (if t ∈ T then Except.ok t else Except.error invalid_bearer_error) = _
      rw [if_pos hmem]
  · intro hT
    subst hT
    rfl
  · intro hT hc
    subst hc
    unfold get_api_token
    rw [if_neg (fun h => hT (List.isEmpty_iff.mp h))]
  · intro t hT hc hmem
    subst hc
    unfold get_api_token
    rw [if_neg (fun h => hT (List.isEmpty_iff.mp h))]
    show (if t ∈ T then Except.ok t else Except.error invalid_bearer_error) = _
    rw [if_neg hmem]

/-- Witness for C1: each of the four outcomes at a concrete store and
    credential. -/
theorem authorize_decision_spec_witness :
    get_api_token ["secret-token"] (some "secret-token") = .ok "secret-token"
    ∧ get_api_token [] none = .error auth_not_configured_error
    ∧ get_api_token ["secret-token"] none = .error missing_bearer_error
    ∧ get_api_token ["secret-token"] (some "wrong")
        = .error invalid_bearer_error := by
  refine ⟨?_, ?_, ?_, ?_⟩
  · exact ((authorize_decision_spec ["secret-token"]
      (some "secret-token")).1 "secret-token").mpr ⟨by decide, rfl, by decide⟩
  · exact (authorize_decision_spec [] none).2.1 rfl
  · exact (authorize_decision_spec ["secret-token"] none).2.2.1 (by decide) rfl
  · exact (authorize_decision_spec ["secret-token"] (some "wrong")).2.2.2.1
      "wrong" (by decide) rfl (by decide)

/-- C2: with an empty token store the protected route group is not
    attached, so every request to a protected path gets status 404 and
    never 401 or 403; conversely the protected group is attached iff
    `is_auth_enabled` returns true, i.e. iff the token set is non-empty. -/
theorem protected_routes_absent_when_auth_disabled (T : List String)
    (eng : Option Engine) :
    (T = [] → ∀ cred, protectedRequestStatus T eng cred = 404
        ∧ protectedRequestStatus T eng cred ≠ 401
        ∧ protectedRequestStatus T eng cred ≠ 403)
    ∧ (RouteGroup.protectedRoutes ∈ v1Routers T eng ↔ is_auth_enabled T = true)
    ∧ (is_auth_enabled T = true ↔ T ≠ []) := by
  have h3 : is_auth_enabled T = true ↔ T ≠ [] := by
    simp [is_auth_enabled, List.isEmpty_iff]
  have h2 : RouteGroup.protectedRoutes ∈ v1Routers T eng ↔
      is_auth_enabled T = true := by
    unfold v1Routers
    by_cases h : is_auth_enabled T
    · simp [h]
    · rw [Bool.not_eq_true] at h
      cases heng : eng.isSome <;> simp [h, heng]
  refine ⟨?_, h2, h3⟩
  intro hT cred
  have h404 : protectedRequestStatus T eng cred = 404 := by
    unfold protectedRequestStatus
    rw [if_neg (fun hm => (h3.mp (h2.mp hm)) hT)]
  exact ⟨h404, by rw [h404]; decide, by rw [h404]; decide⟩

/-- Witness for C2: with no tokens configured, a request carrying a
    credential still gets 404. -/
theorem protected_routes_absent_when_auth_disabled_witness :
    protectedRequestStatus [] none (some "any-token") = 404 :=
  ((protected_routes_absent_when_auth_disabled [] none).1 rfl
    (some "any-token")).1

/-- C3: when no DATABASE_URL is configured the engine is `None`, the
    persistence-backed route group is absent, and every call to
    `get_session` fails with the 500 server-configuration error instead
    of ever yielding a handle. -/
theorem persistence_disabled_routes_and_session (env : Option String)
    (T : List String) (h : DATABASE_URL env = "") :
    engine env = none
    ∧ RouteGroup.users ∉ v1Routers T (engine env)
    ∧ get_session (engine env)
        = .error (internal_server_exception
            "Database not configured. Set DATABASE_URL environment variable.")
    ∧ (internal_server_exception
        "Database not configured. Set DATABASE_URL environment variable.").status_code
        = 500
    ∧ (∀ s, get_session (engine env) ≠ .ok s) := by
  have he : engine env = none := by unfold engine; rw [if_pos h]
  refine ⟨he, ?_, ?_, rfl, ?_⟩
  · rw [he]
    unfold v1Routers
    by_cases ha : is_auth_enabled T <;> simp [ha]
  · rw [he]; rfl
  · intro s hs
    rw [he] at hs
    exact Except.noConfusion hs

/-- Witness for C3: with the DATABASE_URL variable unset the engine is
    absent and `get_session` raises the 500 error. -/
theorem persistence_disabled_routes_and_session_witness :
    engine none = none
    ∧ get_session (engine none)
        = .error (internal_server_exception
            "Database not configured. Set DATABASE_URL environment variable.") := by
  have h := persistence_disabled_routes_and_session none [] (by decide)
  exact ⟨h.1, h.2.2.1⟩

/-- C4: for every environment value of the token-source variable, the
    token store built by the set comprehension in the auth module has
    exactly the same members as the list produced by the config
    resolver's `get_env_list` with separator "," - i.e. the two agree as
    sets of strings. -/
theorem token_store_matches_get_env_list (env : Option String) (t : String) :
    t ∈ VALID_API_TOKENS (get_env_str env "") ↔ t ∈ get_env_list env ',' [] := by
  have base : ∀ s : String, s ≠ "" →
      (t ∈ VALID_API_TOKENS s ↔ t ∈ get_env_list (some s) ',' []) := by
    intro s hs
    rw [VALID_API_TOKENS, List.mem_dedup]
    simp [get_env_list, getenv, if_neg hs]
  cases env with
  | none =>
    have h1 : VALID_API_TOKENS (get_env_str none "") = [] := by decide
    have h2 : get_env_list none ',' [] = [] := by decide
    rw [h1, h2]
  | some s =>
    by_cases hs : s = ""
    · subst hs
      have h1 : VALID_API_TOKENS (get_env_str (some "") "") = [] := by decide
      have h2 : get_env_list (some "") ',' [] = [] := by decide
      rw [h1, h2]
    · simpa [get_env_str, getenv] using base s hs

/-- C5: `get_env_bool` returns the default when the variable is unset or
    empty, returns true exactly when the value lowercases to the literal
    "true", and returns false for every other non-empty value, including
    "1" and "yes". -/
theorem get_env_bool_spec (d : Bool) (v : String) :
    get_env_bool none d = d
    ∧ get_env_bool (some "") d = d
    ∧ (v ≠ "" → (get_env_bool (some v) d = true ↔ pyLower v = "true"))
    ∧ (v ≠ "" → pyLower v ≠ "true" → get_env_bool (some v) d = false)
    ∧ get_env_bool (some "TRUE") d = true
    ∧ get_env_bool (some "1") d = false
    ∧ get_env_bool (some "yes") d = false := by
  have hv : ∀ w : String, w ≠ "" →
      get_env_bool (some w) d = (pyLower w == "true") := by
    intro w hw
    have hw2 : pyLower w ≠ "" := fun h => hw ((pyLower_eq_empty_iff w).mp h)
    simp only [get_env_bool, getenv, Option.getD_some]
    rw [if_neg hw2]
  refine ⟨by simp [get_env_bool, getenv, pyLower],
    by simp [get_env_bool, getenv, pyLower], ?_, ?_, ?_, ?_, ?_⟩
  · intro h
    rw [hv v h]
    exact beq_iff_eq
  · intro h hne
    rw [hv v h]
    exact beq_eq_false_iff_ne.mpr hne
  · rw [hv "TRUE" (by decide)]; decide
  · rw [hv "1" (by decide)]; decide
  · rw [hv "yes" (by decide)]; decide

/-- Witness for C5: a mixed-case "true" is truthy and a mixed-case
    "false" is falsy even with default true. -/
theorem get_env_bool_spec_witness :
    get_env_bool (some "TrUe") false = true
    ∧ get_env_bool (some "FaLsE") true = false := by
  refine ⟨?_, ?_⟩
  · exact ((get_env_bool_spec false "TrUe").2.2.1 (by decide)).mpr (by decide)
  · exact (get_env_bool_spec true "FaLsE").2.2.2.1 (by decide) (by decide)

/-- C6: for every non-empty value, `get_env_list` is the split of the
    value on the separator with each element stripped and the
    empty-after-stripping elements dropped; the result is a sublist of
    the stripped fields (order preserved, surviving duplicates kept) and
    contains no empty string; in particular "a, ,b,,c" resolves to
    exactly ["a","b","c"] and duplicates survive. -/
theorem get_env_list_spec (v : String) (sep : Char) (hv : v ≠ "") :
    get_env_list (some v) sep []
        = ((pySplit v sep).map pyStrip).filter (fun item => item ≠ "")
    ∧ List.Sublist (get_env_list (some v) sep []) ((pySplit v sep).map pyStrip)
    ∧ (∀ x ∈ get_env_list (some v) sep [], x ≠ "")
    ∧ get_env_list (some "a, ,b,,c") ',' [] = ["a", "b", "c"]
    ∧ get_env_list (some "a,b,a") ',' [] = ["a", "b", "a"] := by
  have he : get_env_list (some v) sep []
      = ((pySplit v sep).map pyStrip).filter (fun item => item ≠ "") := by
    simp [get_env_list, getenv, if_neg hv]
  refine ⟨he, ?_, ?_, by decide, by decide⟩
  · rw [he]
    exact List.filter_sublist _
  · intro x hx
    rw [he] at hx
    simpa using (List.mem_filter.mp hx).2

/-- Witness for C6: the specification's worked example. -/
theorem get_env_list_spec_witness :
    get_env_list (some "a, ,b,,c") ',' [] = ["a", "b", "c"] :=
  (get_env_list_spec "a, ,b,,c" ',' (by decide)).2.2.2.1

/-- C7: `create_user` fails with the 400 conflict whose detail is
    "User with this email or username already exists" exactly when an
    existing record matches the new user's email or username (and the
    store is left unchanged on that failure); an email match alone
    suffices, so creating two users with the same email and different
    usernames fails on the second creation without adding a record. -/
theorem create_user_conflict_spec (store : List User) (u u1 u2 : User) :
    ((∃ e ∈ store, e.email = u.email ∨ e.username = u.username) ↔
      create_user store u = (store, .error (bad_request_exception
        "User with this email or username already exists")))
    ∧ (bad_request_exception
        "User with this email or username already exists").status_code = 400
    ∧ ((∃ e ∈ store, e.email = u.email) →
        create_user store u = (store, .error (bad_request_exception
          "User with this email or username already exists")))
    ∧ (u1.email = u2.email →
        create_user [] u1 = ([u1], .ok u1)
        ∧ create_user [u1] u2 = ([u1], .error (bad_request_exception
            "User with this email or username already exists"))) := by
  have hfwd : (∃ e ∈ store, userConflicts e u = true) →
      create_user store u = (store, .error (bad_request_exception
        "User with this email or username already exists")) := by
    intro hex
    have hsome : (store.find? (fun e => userConflicts e u)).isSome :=
      List.find?_isSome.mpr hex
    obtain ⟨e, he⟩ := Option.isSome_iff_exists.mp hsome
    unfold create_user
    rw [he]
  have hiff : (∃ e ∈ store, e.email = u.email ∨ e.username = u.username) ↔
      create_user store u = (store, .error (bad_request_exception
        "User with this email or username already exists")) := by
    constructor
    · intro hex
      apply hfwd
      obtain ⟨e, he, hor⟩ := hex
      exact ⟨e, he, by simpa [userConflicts] using hor⟩
    · intro heq
      by_cases hex : ∃ e ∈ store, userConflicts e u = true
      · obtain ⟨e, he, hc⟩ := hex
        exact ⟨e, he, by simpa [userConflicts] using hc⟩
      · have hnone : store.find? (fun e => userConflicts e u) = none :=
          List.find?_eq_none.mpr (fun x hx hpx => hex ⟨x, hx, hpx⟩)
        unfold create_user at heq
        rw [hnone] at heq
        have hsnd := congrArg Prod.snd heq
        exact absurd hsnd (fun hh => Except.noConfusion hh)
  refine ⟨hiff, rfl, ?_, ?_⟩
  · intro hex
    apply hfwd
    obtain ⟨e, he, hmail⟩ := hex
    exact ⟨e, he, by simp [userConflicts, hmail]⟩
  · intro h12
    refine ⟨rfl, ?_⟩
    have hc : userConflicts u1 u2 = true := by simp [userConflicts, h12]
    have hfind : List.find? (fun e => userConflicts e u2) [u1] = some u1 := by
      simp [List.find?_cons, hc]
    unfold create_user
    rw [hfind]

/-- Witness for C7: same email, different usernames - the second creation
    gets the 400 conflict and the store keeps only the first record. -/
theorem create_user_conflict_spec_witness :
    create_user [] { email := "a@example.com", username := "alice" }
      = ([{ email := "a@example.com", username := "alice" }],
         .ok { email := "a@example.com", username := "alice" })
    ∧ create_user [{ email := "a@example.com", username := "alice" }]
        { email := "a@example.com", username := "bob" }
      = ([{ email := "a@example.com", username := "alice" }],
         .error (bad_request_exception
           "User with this email or username already exists")) :=
  (create_user_conflict_spec []
    { email := "a@example.com", username := "alice" }
    { email := "a@example.com", username := "alice" }
    { email := "a@example.com", username := "bob" }).2.2.2 (by decide)

/-- C8: fetching a user whose id is absent from the store fails with a
    404 whose detail is exactly the resource name followed by the id and
    "not found", so the detail contains both the resource name and the
    requested id. -/
theorem get_user_not_found_spec (store : List User) (id : Nat)
    (h : ∀ u ∈ store, u.id ≠ some id) :
    get_user store id = .error (not_found_exception "User" (toString id))
    ∧ (not_found_exception "User" (toString id)).status_code = 404
    ∧ (not_found_exception "User" (toString id)).detail
        = "User " ++ toString id ++ " not found"
    ∧ (∃ a b : String, (not_found_exception "User" (toString id)).detail
        = a ++ toString id ++ b) := by
  have hnone : session_get store id = none := by
    unfold session_get
    exact List.find?_eq_none.mpr (fun u hu => by simpa using h u hu)
  have hd : (not_found_exception "User" (toString id)).detail
      = "User " ++ toString id ++ " not found" := by
    show ("User" ++ " " ++ toString id ++ " not found") = _
    rw [show ("User" ++ " " : String) = "User " from by decide]
  refine ⟨?_, rfl, hd, "User ", " not found", hd⟩
  unfold get_user get_by_id_or_404
  rw [hnone]
  rfl

/-- Witness for C8: the specification's example id 99999 on an empty
    store yields detail "User 99999 not found". -/
theorem get_user_not_found_spec_witness :
    get_user [] 99999
      = .error { status_code := 404, detail := "User 99999 not found" } := by
  have h := get_user_not_found_spec [] 99999 (by simp)
  rw [h.1]
  decide

/-- C9 counterexample: "short" is an accepted credential of the store
    ["short"], yet the token_preview of the protected-data response for
    it is "short..." - a string that contains the complete token - so
    the response does contain the full token for tokens of at most eight
    characters, refuting the claim as stated. -/
theorem token_preview_contains_short_token :
    get_api_token ["short"] (some "short") = .ok "short"
    ∧ (read_protected_data "short").token_preview = "short" ++ "..."
    ∧ (∃ a b : String,
        (read_protected_data "short").token_preview = a ++ "short" ++ b) := by
  refine ⟨by decide, by decide, "", "...", by decide⟩

/-- C9 amended: the token_preview equals the first eight characters of
    the token followed by "...", and it is a function of the first eight
    characters alone, so at most that short prefix of the token is ever
    exposed (for tokens of at most eight characters this prefix is the
    whole token). -/
theorem token_preview_prefix_only (t t' : String) :
    (read_protected_data t).token_preview = pyTake8 t ++ "..."
    ∧ (pyTake8 t).data = t.data.take 8
    ∧ (t.data.take 8 = t'.data.take 8 →
        (read_protected_data t).token_preview
          = (read_protected_data t').token_preview) := by
  refine ⟨rfl, rfl, ?_⟩
  intro h
  show pyTake8 t ++ "..." = pyTake8 t' ++ "..."
  unfold pyTake8
  rw [h]

/-- Witness for C9 amended: two tokens agreeing on their first eight
    characters produce identical previews. -/
theorem token_preview_prefix_only_witness :
    (read_protected_data "abcdefghXYZ").token_preview
      = (read_protected_data "abcdefghQQQ").token_preview :=
  (token_preview_prefix_only "abcdefghXYZ" "abcdefghQQQ").2.2 (by decide)

/-- C10: for every environment value, the token store never contains the
    empty string or a whitespace-only string, and a supplied empty bearer
    credential is always rejected - with the 403 invalid-credential error
    when the store is non-empty - and never accepted. -/
theorem valid_tokens_nonempty_stripped (s t : String) :
    (t ∈ VALID_API_TOKENS s → t ≠ "" ∧ t.data.all Char.isWhitespace = false)
    ∧ "" ∉ VALID_API_TOKENS s
    ∧ (VALID_API_TOKENS s ≠ [] →
        get_api_token (VALID_API_TOKENS s) (some "") = .error invalid_bearer_error)
    ∧ (∀ r, get_api_token (VALID_API_TOKENS s) (some "") ≠ .ok r) := by
  have hmem : ∀ x : String, x ∈ VALID_API_TOKENS s →
      x ≠ "" ∧ x.data.all Char.isWhitespace = false := by
    intro x hx
    rw [VALID_API_TOKENS, List.mem_dedup, List.mem_filter] at hx
    obtain ⟨hmap, hne⟩ := hx
    have hxe : x ≠ "" := by simpa using hne
    refine ⟨hxe, ?_⟩
    rw [List.mem_map] at hmap
    obtain ⟨item, _, hitem⟩ := hmap
    have hdata : x.data = stripChars item.data := by
      rw [← hitem]
      rfl
    rw [hdata]
    apply stripChars_not_all_whitespace
    intro hnil
    apply hxe
    apply String.ext
    rw [hdata, hnil]
  have hempty_not : "" ∉ VALID_API_TOKENS s := fun hh => (hmem "" hh).1 rfl
  refine ⟨hmem t, hempty_not, ?_, ?_⟩
  · intro hne
    unfold get_api_token
    rw [if_neg (fun hh => hne (List.isEmpty_iff.mp hh))]
    show (if "" ∈ VALID_API_TOKENS s then Except.ok ""
        else Except.error invalid_bearer_error) = Except.error invalid_bearer_error
    rw [if_neg hempty_not]
  · intro r hr
    unfold get_api_token at hr
    by_cases hE : (VALID_API_TOKENS s).isEmpty
    · rw [if_pos hE] at hr
      exact Except.noConfusion hr
    · rw [if_neg hE] at hr
      have hr2 : (if "" ∈ VALID_API_TOKENS s then Except.ok ""
          else Except.error invalid_bearer_error) = Except.ok r := hr
      rw [if_neg hempty_not] at hr2
      exact Except.noConfusion hr2

/-- Witness for C10: a concrete token-source value with whitespace-only
    fields yields a store rejecting the empty credential with 403. -/
theorem valid_tokens_nonempty_stripped_witness :
    "" ∉ VALID_API_TOKENS "alpha, ,beta"
    ∧ get_api_token (VALID_API_TOKENS "alpha, ,beta") (some "")
        = .error invalid_bearer_error := by
  have h := valid_tokens_nonempty_stripped "alpha, ,beta" ""
  exact ⟨h.2.1, h.2.2.1 (by decide)⟩

end Microservice
